import Mathlib

/-!
Shallow embedding of the bootstrap ("warm start") specimen logic of hpath-sim.

The embedded code is `InitSpecimen` from `src/hpath_backend/mock_specimens.py`
(the current implementation) and, for the refinement claim, the earlier
`InitSpecimen` from `src/mock_specimens/mock_specimens.py`.

Stochastic calls (`env.u01()`, `env.task_durations.<task>()`,
`env.globals.num_blocks_*()`, `env.globals.num_slides_*()`) are modelled as
oracle inputs: each embedded stage function receives the values those calls
would return, in the order the Python code makes them.  Probabilities and
durations are rationals; block/slide counts are naturals.
-/

namespace HPath

/-- Specimen priority (`hpath_backend.specimens.Priority`). -/
inductive Priority where
  | ROUTINE
  | URGENT
deriving DecidableEq, Repr

/-- Specimen source classification (the `data['source']` attribute). -/
inductive Source where
  | Internal
  | External
deriving DecidableEq, Repr

/-- Block type tags used by the cut-up code (`block_type=...` strings). -/
inductive BlockType where
  | smallSurgical
  | largeSurgical
  | mega
deriving DecidableEq, Repr

/-- Slide type tags used by the microtomy code (`slide_type=...` strings). -/
inductive SlideType where
  | levels
  | serials
  | larges
  | megas
deriving DecidableEq, Repr

/-- The `data["cutup_type"]` strings set by cut-up. -/
inductive CutupType where
  | BMS
  | Pool
  | LargeSpecimens
deriving DecidableEq, Repr

/-- The `data['decalc_type']` strings set by processing. -/
inductive DecalcType where
  | boneStation
  | decalcOven
deriving DecidableEq, Repr

/-- A slide (`hpath_backend.specimens.Slide`): name prefix passed at creation
and the owning block (modelled by the block's name), plus its type tag. -/
structure Slide where
  parent : String
  slide_type : SlideType
deriving DecidableEq, Repr

/-- A block (`hpath_backend.specimens.Block`): the owning specimen (modelled by
the specimen's name), its type tag, its slides, and the `data['num_slides']`
entry written by microtomy. -/
structure Block where
  name : String
  parent : String
  block_type : BlockType
  slides : List Slide
  num_slides : Option Nat
deriving DecidableEq, Repr

/-- The per-entity bootstrap map `self.data['bootstrap']`.  Each stage handler
stores its elapsed task time together with the inter-stage transit duration
(e.g. keys `'reception'` and `'reception_to_cutup'` are always written by the
same handler), so the map is modelled as one optional `(elapsed, transit)` pair
per stage; QC stores elapsed time only. -/
structure BootstrapRecord where
  reception : Option (ℚ × ℚ)
  cutup : Option (ℚ × ℚ)
  processing : Option (ℚ × ℚ)
  microtomy : Option (ℚ × ℚ)
  staining : Option (ℚ × ℚ)
  labelling : Option (ℚ × ℚ)
  scanning : Option (ℚ × ℚ)
  qc : Option ℚ
deriving DecidableEq, Repr

/-- The empty bootstrap map (`self.data['bootstrap'] = {}` in `setup`). -/
def BootstrapRecord.empty : BootstrapRecord :=
  ⟨none, none, none, none, none, none, none, none⟩

/-- The statically enumerable part of the specimen's free-form `data` map
touched by the bootstrap stage handlers. -/
structure SpecimenData where
  source : Source
  cutup_type : Option CutupType
  num_blocks : Option Nat
  decalc_type : Option DecalcType
  total_slides : Option Nat
deriving DecidableEq, Repr

/-- A specimen (`hpath_backend.specimens.Specimen` as used by `InitSpecimen`). -/
structure Specimen where
  name : String
  prio : Priority
  data : SpecimenData
  blocks : List Block
  bootstrap : BootstrapRecord
deriving DecidableEq, Repr

/-- The branching probabilities read from `env.globals` by the bootstrap
stage handlers. -/
structure Globals where
  prob_prebook : ℚ
  prob_invest_easy : ℚ
  prob_invest_hard : ℚ
  prob_invest_external : ℚ
  prob_bms_cutup : ℚ
  prob_bms_cutup_urgent : ℚ
  prob_pool_cutup : ℚ
  prob_pool_cutup_urgent : ℚ
  prob_mega_blocks : ℚ
  prob_decalc_bone : ℚ
  prob_decalc_oven : ℚ
  prob_microtomy_levels : ℚ
deriving DecidableEq, Repr

/-! ## Cut-up (`InitSpecimen.init_cut_up` and the earlier `InitSpecimen.cut_up`) -/

/-- Oracle values consumed by one cut-up call: the branch draw `r`, the mega
draw (read only in the Large-specimens branch when the short-circuit does not
fire), the two count samples, the three task-duration samples and the three
transit `out_duration`s. -/
structure CutUpSamples where
  r : ℚ
  rMega : ℚ
  nMega : Nat
  nLargeSurgical : Nat
  dBms : ℚ
  dPool : ℚ
  dLargeSpecimens : ℚ
  trBms : ℚ
  trPool : ℚ
  trLarge : ℚ
deriving DecidableEq, Repr

/-- The BMS threshold: `getattr(env.globals, 'prob_bms_cutup'+suffix)` where
the suffix is `'_urgent'` for urgent specimens. -/
def probBms (g : Globals) (p : Priority) : ℚ :=
  if p = Priority.URGENT then g.prob_bms_cutup_urgent else g.prob_bms_cutup

/-- The Pool threshold: `getattr(env.globals, 'prob_pool_cutup'+suffix)`. -/
def probPool (g : Globals) (p : Priority) : ℚ :=
  if p = Priority.URGENT then g.prob_pool_cutup_urgent else g.prob_pool_cutup

/-- A fresh block as built by the cut-up handlers: name prefix
`f'{self.name()}.'`, parent the specimen, the given type, no slides yet. -/
def mkBlock (specName : String) (bt : BlockType) : Block :=
  ⟨specName ++ ".", specName, bt, [], none⟩

/-- `InitSpecimen.init_cut_up` (src/hpath_backend/mock_specimens.py, lines
56-121).  Note the Large-specimens branch: the Python condition is
`(self.prio == Priority.URGENT) or (env.u01() < env.globals.prob_mega_blocks)`,
so an urgent specimen takes the mega sub-branch unconditionally. -/
def init_cut_up (g : Globals) (s : Specimen) (smp : CutUpSamples) : Specimen :=
  if smp.r < probBms g s.prio then
    { s with
      data := { s.data with cutup_type := some CutupType.BMS, num_blocks := some 1 }
      blocks := s.blocks ++ [mkBlock s.name BlockType.smallSurgical]
      bootstrap := { s.bootstrap with cutup := some (smp.dBms, smp.trBms) } }
  else if smp.r < probBms g s.prio + probPool g s.prio then
    { s with
      data := { s.data with cutup_type := some CutupType.Pool, num_blocks := some 1 }
      blocks := s.blocks ++ [mkBlock s.name BlockType.largeSurgical]
      bootstrap := { s.bootstrap with cutup := some (smp.dPool, smp.trPool) } }
  else
    let n_blocks : Nat :=
      if s.prio = Priority.URGENT ∨ smp.rMega < g.prob_mega_blocks
      then smp.nMega else smp.nLargeSurgical
    let block_type : BlockType :=
      if s.prio = Priority.URGENT ∨ smp.rMega < g.prob_mega_blocks
      then BlockType.mega else BlockType.largeSurgical
    { s with
      data := { s.data with
        cutup_type := some CutupType.LargeSpecimens, num_blocks := some n_blocks }
      blocks := s.blocks ++ List.replicate n_blocks (mkBlock s.name block_type)
      bootstrap := { s.bootstrap with
        cutup := some (smp.dLargeSpecimens, smp.trLarge) } }

/-- `InitSpecimen.cut_up` (src/mock_specimens/mock_specimens.py, lines 55-118):
the earlier implementation.  It differs from `init_cut_up` only in the `data`
map: the Pool branch and the Large-specimens branch do not write
`data['num_blocks']`. -/
def cut_up (g : Globals) (s : Specimen) (smp : CutUpSamples) : Specimen :=
  if smp.r < probBms g s.prio then
    { s with
      data := { s.data with cutup_type := some CutupType.BMS, num_blocks := some 1 }
      blocks := s.blocks ++ [mkBlock s.name BlockType.smallSurgical]
      bootstrap := { s.bootstrap with cutup := some (smp.dBms, smp.trBms) } }
  else if smp.r < probBms g s.prio + probPool g s.prio then
    { s with
      data := { s.data with cutup_type := some CutupType.Pool }
      blocks := s.blocks ++ [mkBlock s.name BlockType.largeSurgical]
      bootstrap := { s.bootstrap with cutup := some (smp.dPool, smp.trPool) } }
  else
    let n_blocks : Nat :=
      if s.prio = Priority.URGENT ∨ smp.rMega < g.prob_mega_blocks
      then smp.nMega else smp.nLargeSurgical
    let block_type : BlockType :=
      if s.prio = Priority.URGENT ∨ smp.rMega < g.prob_mega_blocks
      then BlockType.mega else BlockType.largeSurgical
    { s with
      data := { s.data with cutup_type := some CutupType.LargeSpecimens }
      blocks := s.blocks ++ List.replicate n_blocks (mkBlock s.name block_type)
      bootstrap := { s.bootstrap with
        cutup := some (smp.dLargeSpecimens, smp.trLarge) } }

/-! ## Reception (`InitSpecimen.init_reception`) -/

/-- Oracle values consumed by one reception call: the prebook draw, the
internal-investigation draw `r`, the external-investigation draw, the seven
task-duration samples and the `reception_to_cutup` transit duration. -/
structure ReceptionSamples where
  uPrebook : ℚ
  rInvest : ℚ
  uInvestExternal : ℚ
  dReceiveAndSort : ℚ
  dPreBookingInInvestigation : ℚ
  dBookingInInternal : ℚ
  dBookingInExternal : ℚ
  dInvestInternalEasy : ℚ
  dInvestInternalHard : ℚ
  dInvestExternal : ℚ
  trReceptionToCutup : ℚ
deriving DecidableEq, Repr

/-- `InitSpecimen.init_reception` (src/hpath_backend/mock_specimens.py, lines
23-54). -/
def init_reception (g : Globals) (s : Specimen) (smp : ReceptionSamples) : Specimen :=
  let e1 := smp.dReceiveAndSort
  let e2 := if smp.uPrebook < g.prob_prebook
    then e1 + smp.dPreBookingInInvestigation else e1
  let e3 := if s.data.source = Source.Internal
    then e2 + smp.dBookingInInternal else e2 + smp.dBookingInExternal
  let e4 :=
    if s.data.source = Source.Internal then
      if smp.rInvest < g.prob_invest_easy then e3 + smp.dInvestInternalEasy
      else if smp.rInvest < g.prob_invest_easy + g.prob_invest_hard then
        e3 + smp.dInvestInternalHard
      else e3
    else
      if smp.uInvestExternal < g.prob_invest_external then e3 + smp.dInvestExternal
      else e3
  { s with bootstrap := { s.bootstrap with
      reception := some (e4, smp.trReceptionToCutup) } }

/-! ## Processing (`InitSpecimen.init_processing`) -/

/-- Oracle values consumed by one processing call. -/
structure ProcessingSamples where
  rDecalc : ℚ
  dLoadBoneStation : ℚ
  dDecalc : ℚ
  dUnloadBoneStation : ℚ
  dLoadIntoDecalcOven : ℚ
  dUnloadFromDecalcOven : ℚ
  dLoadProcessingMachine : ℚ
  dProcessingUrgent : ℚ
  dProcessingSmallSurgicals : ℚ
  dProcessingLargeSurgicals : ℚ
  dProcessingMegas : ℚ
  dUnloadProcessingMachine : ℚ
  trProcessingToMicrotomy : ℚ
deriving DecidableEq, Repr

/-- The decalcification branch of `init_processing`: the chosen decalc type
(if any) and the added chain of sub-durations. -/
def decalcChoice (g : Globals) (smp : ProcessingSamples) : Option DecalcType × ℚ :=
  if smp.rDecalc < g.prob_decalc_bone then
    (some DecalcType.boneStation,
      smp.dLoadBoneStation + smp.dDecalc + smp.dUnloadBoneStation)
  else if smp.rDecalc < g.prob_decalc_bone + g.prob_decalc_oven then
    (some DecalcType.decalcOven,
      smp.dLoadIntoDecalcOven + smp.dDecalc + smp.dUnloadFromDecalcOven)
  else (none, 0)

/-- The main processing duration: the urgent duration for URGENT priority,
otherwise keyed by the type of `self.blocks[0]` (`none` when the specimen has
no blocks, modelling the failing lookup). -/
def processingMainDur (s : Specimen) (smp : ProcessingSamples) : Option ℚ :=
  if s.prio = Priority.URGENT then some smp.dProcessingUrgent
  else match s.blocks.head? with
    | none => none
    | some b => some (match b.block_type with
        | BlockType.smallSurgical => smp.dProcessingSmallSurgicals
        | BlockType.largeSurgical => smp.dProcessingLargeSurgicals
        | BlockType.mega => smp.dProcessingMegas)

/-- `InitSpecimen.init_processing` (src/hpath_backend/mock_specimens.py, lines
130-170).  For a non-urgent specimen the main processing duration is read off
`self.blocks[0]`; a specimen with no blocks makes that lookup fail, which is
modelled by returning `none`. -/
def init_processing (g : Globals) (s : Specimen) (smp : ProcessingSamples) :
    Option Specimen :=
  (processingMainDur s smp).map fun md =>
    { s with
      data := match (decalcChoice g smp).1 with
        | none => s.data
        | some dt => { s.data with decalc_type := some dt }
      bootstrap := { s.bootstrap with
        processing := some
          ((decalcChoice g smp).2 + smp.dLoadProcessingMachine + md
            + smp.dUnloadProcessingMachine,
           smp.trProcessingToMicrotomy) } }

/-! ## Microtomy (`InitSpecimen.init_microtomy`) -/

/-- Oracle streams consumed by one microtomy call: the per-block levels-vs-
serials draws (popped only for small-surgical blocks), the per-block
microtomy-duration samples, and the per-block slide-count samples. -/
structure MicrotomySamples where
  us : List ℚ
  durs : List ℚ
  counts : List Nat
  trMicrotomyToStaining : ℚ
deriving DecidableEq, Repr

/-- One iteration of the `for block in self.blocks` loop of `init_microtomy`:
choose the slide type from the block type (and the draw `u` for small
surgicals), append `n` slides of that type to the block and set the block's
`num_slides`. -/
def microtomyBlock (g : Globals) (b : Block) (u : ℚ) (n : Nat) : Block :=
  let st : SlideType :=
    match b.block_type with
    | BlockType.smallSurgical =>
        if u < g.prob_microtomy_levels then SlideType.levels else SlideType.serials
    | BlockType.largeSurgical => SlideType.larges
    | BlockType.mega => SlideType.megas
  { b with
    slides := b.slides ++ List.replicate n ⟨b.name, st⟩
    num_slides := some n }

/-- The `for block in self.blocks` loop of `init_microtomy`, threading the
oracle streams; returns the updated blocks, the accumulated elapsed time and
the accumulated `total_slides`.  The draw stream is consumed only for
small-surgical blocks; the duration and count streams are consumed once per
block. -/
def microtomyLoop (g : Globals) :
    List Block → List ℚ → List ℚ → List Nat → List Block × ℚ × Nat
  | [], _, _, _ => ([], 0, 0)
  | b :: rest, us, durs, counts =>
      let us' := if b.block_type = BlockType.smallSurgical then us.tail else us
      let r' := microtomyLoop g rest us' durs.tail counts.tail
      (microtomyBlock g b us.headI counts.headI :: r'.1,
       durs.headI + r'.2.1, counts.headI + r'.2.2)

/-- `InitSpecimen.init_microtomy` (src/hpath_backend/mock_specimens.py, lines
172-217). -/
def init_microtomy (g : Globals) (s : Specimen) (smp : MicrotomySamples) : Specimen :=
  { s with
    blocks := (microtomyLoop g s.blocks smp.us smp.durs smp.counts).1
    data := { s.data with
      total_slides := some (microtomyLoop g s.blocks smp.us smp.durs smp.counts).2.2 }
    bootstrap := { s.bootstrap with
      microtomy := some ((microtomyLoop g s.blocks smp.us smp.durs smp.counts).2.1,
        smp.trMicrotomyToStaining) } }

/-! ## Staining, labelling, scanning, QC -/

/-- The unguarded lookup `self.blocks[0].slides[0].data['slide_type']` shared
by `init_staining` and `init_scanning`: `none` when the specimen has no blocks
or its first block has no slides. -/
def slideTypeLookup (s : Specimen) : Option SlideType :=
  s.blocks.head?.bind fun b => b.slides.head?.map fun sl => sl.slide_type

/-- Oracle values consumed by one staining call; `dsCoverslipMegas` is the
stream of per-slide `coverslip_megas` samples. -/
structure StainingSamples where
  dLoadStainingMegas : ℚ
  dStainingMegas : ℚ
  dUnloadStainingMegas : ℚ
  dsCoverslipMegas : List ℚ
  dLoadStainingRegular : ℚ
  dStainingRegular : ℚ
  dUnloadStainingRegular : ℚ
  dLoadCoverslipRegular : ℚ
  dCoverslipRegular : ℚ
  dUnloadCoverslipRegular : ℚ
  trStainingToLabelling : ℚ
deriving DecidableEq, Repr

/-- The nested `for block in self.blocks: for _ in block.slides` loop of the
megas branch of `init_staining`: one sampled `coverslip_megas` duration added
per individual slide, consuming the sample stream in slide order. -/
def coverslipMegasLoop : List Block → List ℚ → ℚ
  | [], _ => 0
  | b :: rest, ds =>
      (ds.take b.slides.length).sum + coverslipMegasLoop rest (ds.drop b.slides.length)

/-- `InitSpecimen.init_staining` (src/hpath_backend/mock_specimens.py, lines
219-246); `none` when the `blocks[0].slides[0]` lookup fails. -/
def init_staining (s : Specimen) (smp : StainingSamples) : Option Specimen :=
  (slideTypeLookup s).map fun st =>
    { s with bootstrap := { s.bootstrap with
        staining := some
          (if st = SlideType.megas then
            smp.dLoadStainingMegas + smp.dStainingMegas + smp.dUnloadStainingMegas
              + coverslipMegasLoop s.blocks smp.dsCoverslipMegas
          else
            smp.dLoadStainingRegular + smp.dStainingRegular
              + smp.dUnloadStainingRegular + smp.dLoadCoverslipRegular
              + smp.dCoverslipRegular + smp.dUnloadCoverslipRegular,
          smp.trStainingToLabelling) } }

/-- Oracle values consumed by one labelling call: the stream of per-slide
`labelling` samples and the transit duration. -/
structure LabellingSamples where
  dsLabelling : List ℚ
  trLabellingToScanning : ℚ
deriving DecidableEq, Repr

/-- The nested per-slide loop of `init_labelling`, consuming one `labelling`
sample per slide. -/
def labellingLoop : List Block → List ℚ → ℚ
  | [], _ => 0
  | b :: rest, ds =>
      (ds.take b.slides.length).sum + labellingLoop rest (ds.drop b.slides.length)

/-- `InitSpecimen.init_labelling` (src/hpath_backend/mock_specimens.py, lines
248-262). -/
def init_labelling (s : Specimen) (smp : LabellingSamples) : Specimen :=
  { s with bootstrap := { s.bootstrap with
      labelling := some
        (labellingLoop s.blocks smp.dsLabelling, smp.trLabellingToScanning) } }

/-- Oracle values consumed by one scanning call. -/
structure ScanningSamples where
  dLoadScanningMegas : ℚ
  dScanningMegas : ℚ
  dUnloadScanningMegas : ℚ
  dLoadScanningRegular : ℚ
  dScanningRegular : ℚ
  dUnloadScanningRegular : ℚ
  trScanningToQc : ℚ
deriving DecidableEq, Repr

/-- `InitSpecimen.init_scanning` (src/hpath_backend/mock_specimens.py, lines
264-283); `none` when the `blocks[0].slides[0]` lookup fails. -/
def init_scanning (s : Specimen) (smp : ScanningSamples) : Option Specimen :=
  (slideTypeLookup s).map fun st =>
    { s with bootstrap := { s.bootstrap with
        scanning := some
          (if st = SlideType.megas then
            smp.dLoadScanningMegas + smp.dScanningMegas + smp.dUnloadScanningMegas
          else
            smp.dLoadScanningRegular + smp.dScanningRegular
              + smp.dUnloadScanningRegular,
          smp.trScanningToQc) } }

/-- `InitSpecimen.init_qc` (src/hpath_backend/mock_specimens.py, lines
285-290): stores the `block_and_quality_check` sample; no transit. -/
def init_qc (s : Specimen) (dQc : ℚ) : Specimen :=
  { s with bootstrap := { s.bootstrap with qc := some dQc } }

/-! ## `compute_timestamps` -/

/-- The per-stage `{start, end}` timestamps written into the specimen's data
map by `compute_timestamps` (keys `<stage>_start`, `<stage>_end`). -/
structure Timestamps where
  reception : Option (ℚ × ℚ)
  cutup : Option (ℚ × ℚ)
  processing : Option (ℚ × ℚ)
  microtomy : Option (ℚ × ℚ)
  staining : Option (ℚ × ℚ)
  labelling : Option (ℚ × ℚ)
  scanning : Option (ℚ × ℚ)
  qc : Option (ℚ × ℚ)
deriving DecidableEq, Repr

/-- One `if '<stage>' in self.data['bootstrap']` body of `compute_timestamps`
for a stage with a transit entry: subtract the transit to get the stage end,
then the elapsed time to get the stage start; the running timestamp becomes
the stage start. -/
def stepStage (entry : Option (ℚ × ℚ)) (t : ℚ) : Option (ℚ × ℚ) × ℚ :=
  match entry with
  | none => (none, t)
  | some (e, tr) => (some (t - tr - e, t - tr), t - tr - e)

/-- The QC block of `compute_timestamps`: `qc_end` is the virtual now 0,
`qc_start` is `0` minus the elapsed time. -/
def stepQc (entry : Option ℚ) : Option (ℚ × ℚ) × ℚ :=
  match entry with
  | none => (none, 0)
  | some e => (some (0 - e, 0), 0 - e)

/-- The running `timestamp` variable of `compute_timestamps` after the QC
block. -/
def tAfterQc (b : BootstrapRecord) : ℚ := (stepQc b.qc).2

/-- The running `timestamp` after the scanning block. -/
def tAfterScanning (b : BootstrapRecord) : ℚ := (stepStage b.scanning (tAfterQc b)).2

/-- The running `timestamp` after the labelling block. -/
def tAfterLabelling (b : BootstrapRecord) : ℚ := (stepStage b.labelling (tAfterScanning b)).2

/-- The running `timestamp` after the staining block. -/
def tAfterStaining (b : BootstrapRecord) : ℚ := (stepStage b.staining (tAfterLabelling b)).2

/-- The running `timestamp` after the microtomy block. -/
def tAfterMicrotomy (b : BootstrapRecord) : ℚ := (stepStage b.microtomy (tAfterStaining b)).2

/-- The running `timestamp` after the processing block. -/
def tAfterProcessing (b : BootstrapRecord) : ℚ := (stepStage b.processing (tAfterMicrotomy b)).2

/-- The running `timestamp` after the cut-up block. -/
def tAfterCutup (b : BootstrapRecord) : ℚ := (stepStage b.cutup (tAfterProcessing b)).2

/-- `InitSpecimen.compute_timestamps` (src/hpath_backend/mock_specimens.py,
lines 307-351): walk the stages in reverse chronological order from a virtual
now of 0, threading the running `timestamp` through the eight stage blocks. -/
def compute_timestamps (b : BootstrapRecord) : Timestamps :=
  ⟨(stepStage b.reception (tAfterCutup b)).1,
   (stepStage b.cutup (tAfterProcessing b)).1,
   (stepStage b.processing (tAfterMicrotomy b)).1,
   (stepStage b.microtomy (tAfterStaining b)).1,
   (stepStage b.staining (tAfterLabelling b)).1,
   (stepStage b.labelling (tAfterScanning b)).1,
   (stepStage b.scanning (tAfterQc b)).1,
   (stepQc b.qc).1⟩

/-! ## Predicates used by the claims about `compute_timestamps` -/

/-- Both components of a recorded `(elapsed, transit)` pair are nonnegative. -/
def optPairNonneg : Option (ℚ × ℚ) → Prop
  | none => True
  | some p => 0 ≤ p.1 ∧ 0 ≤ p.2

/-- Both components of an assigned `(start, end)` timestamp pair are `≤ 0`. -/
def optPairNonpos : Option (ℚ × ℚ) → Prop
  | none => True
  | some p => p.1 ≤ 0 ∧ p.2 ≤ 0

/-- A recorded QC elapsed value is nonnegative. -/
def optNonneg : Option ℚ → Prop
  | none => True
  | some e => 0 ≤ e

/-- All elapsed and transit values recorded in the bootstrap map are
nonnegative. -/
def BootstrapRecord.nonneg (b : BootstrapRecord) : Prop :=
  optPairNonneg b.reception ∧ optPairNonneg b.cutup ∧ optPairNonneg b.processing ∧
    optPairNonneg b.microtomy ∧ optPairNonneg b.staining ∧ optPairNonneg b.labelling ∧
    optPairNonneg b.scanning ∧ optNonneg b.qc

/-- The completed-stage set recorded in the bootstrap map is a (possibly
empty) prefix of the stage order reception, cutup, processing, microtomy,
staining, labelling, scanning, qc: every recorded stage's predecessor is also
recorded. -/
def BootstrapRecord.contiguous (b : BootstrapRecord) : Prop :=
  (b.cutup.isSome → b.reception.isSome) ∧
  (b.processing.isSome → b.cutup.isSome) ∧
  (b.microtomy.isSome → b.processing.isSome) ∧
  (b.staining.isSome → b.microtomy.isSome) ∧
  (b.labelling.isSome → b.staining.isSome) ∧
  (b.scanning.isSome → b.labelling.isSome) ∧
  (b.qc.isSome → b.scanning.isSome)

/-- Total number of slides owned by a specimen over all of its blocks. -/
def totalSlides (s : Specimen) : ℕ :=
  (s.blocks.map (fun b => b.slides.length)).sum

/-! ## Concrete inputs used to instantiate the theorems -/

/-- A concrete probability table with every probability 0; individual
theorems override fields with probability 1 to force branches. -/
def g0 : Globals :=
  { prob_prebook := 0, prob_invest_easy := 0, prob_invest_hard := 0,
    prob_invest_external := 0,
    prob_bms_cutup := 0, prob_bms_cutup_urgent := 0,
    prob_pool_cutup := 0, prob_pool_cutup_urgent := 0,
    prob_mega_blocks := 0,
    prob_decalc_bone := 0, prob_decalc_oven := 0,
    prob_microtomy_levels := 0 }

/-- A concrete urgent specimen with no blocks yet. -/
def sUrgent : Specimen :=
  { name := "S1", prio := Priority.URGENT,
    data := { source := Source.Internal, cutup_type := none, num_blocks := none,
              decalc_type := none, total_slides := none },
    blocks := [], bootstrap := BootstrapRecord.empty }

/-- A concrete routine specimen with no blocks yet. -/
def sRoutine : Specimen :=
  { name := "S2", prio := Priority.ROUTINE,
    data := { source := Source.Internal, cutup_type := none, num_blocks := none,
              decalc_type := none, total_slides := none },
    blocks := [], bootstrap := BootstrapRecord.empty }

/-- Concrete cut-up oracle values whose branch draw falls above both
thresholds of `g0` (the Large-specimens branch) and whose mega draw is above
`prob_mega_blocks`. -/
def cutW : CutUpSamples :=
  { r := 1, rMega := 1, nMega := 2, nLargeSurgical := 3,
    dBms := 4, dPool := 5, dLargeSpecimens := 6,
    trBms := 1, trPool := 2, trLarge := 3 }

/-- A probability table whose plain Pool threshold is 1 (every routine draw
in `[0, 1)` takes the Pool branch). -/
def gPool : Globals := { g0 with prob_pool_cutup := 1 }

/-- A probability table whose plain BMS threshold is 1. -/
def gBms : Globals := { g0 with prob_bms_cutup := 1 }

/-- Concrete cut-up oracle values with branch draw 0: in the Pool band of
`gPool` (`0 ≤ 0 < 0 + 1`) and in the BMS band of `gBms`. -/
def cutPoolW : CutUpSamples :=
  { r := 0, rMega := 1, nMega := 2, nLargeSurgical := 3,
    dBms := 4, dPool := 5, dLargeSpecimens := 6,
    trBms := 1, trPool := 2, trLarge := 3 }

/-- A concrete bootstrap record with every stage completed: elapsed and
transit 1 for the seven transit stages, elapsed 2 for QC. -/
def bW : BootstrapRecord :=
  ⟨some (1, 1), some (1, 1), some (1, 1), some (1, 1),
   some (1, 1), some (1, 1), some (1, 1), some 2⟩

/-- A concrete specimen owning one large-surgical block with no slides yet
(the state right after a Pool cut-up). -/
def sOneBlock : Specimen :=
  { sRoutine with blocks := [mkBlock "S2" BlockType.largeSurgical] }

/-- Concrete microtomy oracle streams for a one-block specimen: one draw, one
duration sample, one slide-count sample of 2. -/
def micW : MicrotomySamples :=
  { us := [0], durs := [3], counts := [2], trMicrotomyToStaining := 1 }

/-- A concrete block holding two mega slides (the state after microtomy of a
mega block). -/
def blockMega : Block :=
  { name := "S2.", parent := "S2", block_type := BlockType.mega,
    slides := [⟨"S2.", SlideType.megas⟩, ⟨"S2.", SlideType.megas⟩],
    num_slides := some 2 }

/-- A concrete specimen owning one mega block with two mega slides. -/
def sMega : Specimen := { sRoutine with blocks := [blockMega] }

/-- Concrete processing oracle values (decalc draw above both thresholds of
`g0`). -/
def prW : ProcessingSamples :=
  { rDecalc := 1, dLoadBoneStation := 1, dDecalc := 2, dUnloadBoneStation := 1,
    dLoadIntoDecalcOven := 1, dUnloadFromDecalcOven := 1,
    dLoadProcessingMachine := 2, dProcessingUrgent := 7,
    dProcessingSmallSurgicals := 3, dProcessingLargeSurgicals := 4,
    dProcessingMegas := 5, dUnloadProcessingMachine := 2,
    trProcessingToMicrotomy := 1 }

/-- Concrete staining oracle values with two per-slide coverslip samples. -/
def stW : StainingSamples :=
  { dLoadStainingMegas := 1, dStainingMegas := 2, dUnloadStainingMegas := 1,
    dsCoverslipMegas := [3, 4],
    dLoadStainingRegular := 1, dStainingRegular := 2, dUnloadStainingRegular := 1,
    dLoadCoverslipRegular := 1, dCoverslipRegular := 2,
    dUnloadCoverslipRegular := 1, trStainingToLabelling := 1 }

/-- Concrete scanning oracle values. -/
def scW : ScanningSamples :=
  { dLoadScanningMegas := 1, dScanningMegas := 2, dUnloadScanningMegas := 1,
    dLoadScanningRegular := 1, dScanningRegular := 2,
    dUnloadScanningRegular := 1, trScanningToQc := 1 }

/-! ## Helper lemmas about the `compute_timestamps` walk -/

/-- The running timestamp never increases across a stage block whose recorded
values are nonnegative. -/
theorem stepStage_snd_nonpos (o : Option (ℚ × ℚ)) (t : ℚ)
    (ht : t ≤ 0) (ho : optPairNonneg o) : (stepStage o t).2 ≤ 0 := by
  cases o with
  | none => simpa [stepStage] using ht
  | some p =>
      obtain ⟨e, tr⟩ := p
      obtain ⟨he, htr⟩ := ho
      simp only [stepStage]
      linarith

/-- A stage block entered at a nonpositive running timestamp assigns only
nonpositive start and end timestamps. -/
theorem stepStage_fst_nonpos (o : Option (ℚ × ℚ)) (t : ℚ)
    (ht : t ≤ 0) (ho : optPairNonneg o) : optPairNonpos (stepStage o t).1 := by
  cases o with
  | none => simp [stepStage, optPairNonpos]
  | some p =>
      obtain ⟨e, tr⟩ := p
      obtain ⟨he, htr⟩ := ho
      simp only [stepStage, optPairNonpos]
      constructor <;> linarith

/-- The running timestamp after the QC block is nonpositive when the recorded
QC elapsed time is nonnegative. -/
theorem stepQc_snd_nonpos (o : Option ℚ) (ho : optNonneg o) : (stepQc o).2 ≤ 0 := by
  cases o with
  | none => simp [stepQc]
  | some e =>
      simp only [stepQc]
      have : (0 : ℚ) ≤ e := ho
      linarith

/-- The QC block assigns only nonpositive timestamps when the recorded QC
elapsed time is nonnegative. -/
theorem stepQc_fst_nonpos (o : Option ℚ) (ho : optNonneg o) :
    optPairNonpos (stepQc o).1 := by
  cases o with
  | none => simp [stepQc, optPairNonpos]
  | some e =>
      have : (0 : ℚ) ≤ e := ho
      simp only [stepQc, optPairNonpos]
      constructor <;> linarith

/-- Evaluation of a stage block on a present entry. -/
theorem stepStage_some_eq (p : ℚ × ℚ) (t : ℚ) :
    stepStage (some p) t = (some (t - p.2 - p.1, t - p.2), t - p.2 - p.1) := by
  obtain ⟨e, tr⟩ := p
  rfl

/-- When a stage block assigns timestamps, the running timestamp it passes on
is exactly the assigned stage start. -/
theorem stepStage_start (o : Option (ℚ × ℚ)) (t : ℚ) (q : ℚ × ℚ)
    (hq : (stepStage o t).1 = some q) : (stepStage o t).2 = q.1 := by
  cases o with
  | none => simp [stepStage] at hq
  | some p =>
      obtain ⟨e, tr⟩ := p
      simp only [stepStage, Option.some.injEq] at hq
      rw [← hq]
      rfl

/-- When the QC block assigns timestamps, the running timestamp it passes on
is exactly the assigned QC start. -/
theorem stepQc_start (o : Option ℚ) (q : ℚ × ℚ)
    (hq : (stepQc o).1 = some q) : (stepQc o).2 = q.1 := by
  cases o with
  | none => simp [stepQc] at hq
  | some e =>
      simp only [stepQc, Option.some.injEq] at hq
      rw [← hq]
      rfl

/-- The assigned end minus the assigned start of a stage block equals the
recorded elapsed time. -/
theorem stepStage_duration (o : Option (ℚ × ℚ)) (t : ℚ) (p q : ℚ × ℚ)
    (hp : o = some p) (hq : (stepStage o t).1 = some q) : q.2 - q.1 = p.1 := by
  subst hp
  obtain ⟨e, tr⟩ := p
  simp only [stepStage, Option.some.injEq] at hq
  rw [← hq]
  simp

/-- The assigned QC end minus the assigned QC start equals the recorded QC
elapsed time. -/
theorem stepQc_duration (o : Option ℚ) (e : ℚ) (q : ℚ × ℚ)
    (hp : o = some e) (hq : (stepQc o).1 = some q) : q.2 - q.1 = e := by
  subst hp
  simp only [stepQc, Option.some.injEq] at hq
  rw [← hq]
  simp

/-- Adjacency across one stage boundary: the later block's assigned start
equals the earlier block's assigned end plus the earlier stage's recorded
transit time. -/
theorem stepStage_pair (oPrev oNext : Option (ℚ × ℚ)) (tIn : ℚ)
    (p qPrev qNext : ℚ × ℚ) (hp : oPrev = some p)
    (hqPrev : (stepStage oPrev (stepStage oNext tIn).2).1 = some qPrev)
    (hqNext : (stepStage oNext tIn).1 = some qNext) :
    qNext.1 = qPrev.2 + p.2 := by
  have hstart := stepStage_start oNext tIn qNext hqNext
  subst hp
  obtain ⟨e, tr⟩ := p
  simp only [stepStage_some_eq, Option.some.injEq] at hqPrev
  rw [← hqPrev]
  simp only
  linarith

/-- Adjacency between the scanning block and the QC block. -/
theorem stepQc_pair (oPrev : Option (ℚ × ℚ)) (oQc : Option ℚ)
    (p qPrev qNext : ℚ × ℚ) (hp : oPrev = some p)
    (hqPrev : (stepStage oPrev (stepQc oQc).2).1 = some qPrev)
    (hqNext : (stepQc oQc).1 = some qNext) :
    qNext.1 = qPrev.2 + p.2 := by
  have hstart := stepQc_start oQc qNext hqNext
  subst hp
  obtain ⟨e, tr⟩ := p
  simp only [stepStage_some_eq, Option.some.injEq] at hqPrev
  rw [← hqPrev]
  simp only
  linarith

/-! ## Helper lemmas about the microtomy loop and the per-slide loops -/

/-- Each block updated by the microtomy loop keeps its name, parent and block
type. -/
theorem microtomyLoop_map_identity (g : Globals) :
    ∀ (bs : List Block) (us durs : List ℚ) (counts : List Nat),
      ((microtomyLoop g bs us durs counts).1.map
          fun b => (b.name, b.parent, b.block_type))
        = bs.map fun b => (b.name, b.parent, b.block_type) := by
  intro bs
  induction bs with
  | nil => intro us durs counts; rfl
  | cons b rest ih =>
      intro us durs counts
      simp only [microtomyLoop, List.map_cons, ih]
      simp [microtomyBlock]

/-- When every slide-count sample is at least 1, the count stream is as long
as the block list and the input blocks carry no slides, every block produced
by the microtomy loop has at least one slide and every such slide's parent is
its block. -/
theorem microtomyLoop_slides (g : Globals) :
    ∀ (bs : List Block) (us durs : List ℚ) (counts : List Nat),
      counts.length = bs.length → (∀ n ∈ counts, 1 ≤ n) →
      (∀ b ∈ bs, b.slides = []) →
      ∀ b' ∈ (microtomyLoop g bs us durs counts).1,
        1 ≤ b'.slides.length ∧ ∀ sl ∈ b'.slides, sl.parent = b'.name := by
  intro bs
  induction bs with
  | nil =>
      intro us durs counts _ _ _ b' hb'
      simp [microtomyLoop] at hb'
  | cons b rest ih =>
      intro us durs counts hlen hpos hempty b' hb'
      cases counts with
      | nil => simp at hlen
      | cons c cs =>
          simp only [microtomyLoop, List.mem_cons, List.tail_cons,
            List.headI_cons] at hb'
          rcases hb' with hb' | hb'
          · subst hb'
            have hc : 1 ≤ c := hpos c (List.mem_cons_self c cs)
            have hbe : b.slides = [] := hempty b (List.mem_cons_self b rest)
            refine ⟨?_, ?_⟩
            · simpa [microtomyBlock, hbe] using hc
            · intro sl hsl
              simp only [microtomyBlock, hbe, List.nil_append,
                List.mem_replicate] at hsl
              simp [microtomyBlock, hsl.2]
          · exact ih _ _ cs (by simpa using hlen)
              (fun n hn => hpos n (List.mem_cons_of_mem c hn))
              (fun x hx => hempty x (List.mem_cons_of_mem b hx)) b' hb'

/-- The megas coverslip loop adds exactly one sample from the stream per
slide, over all slides of all blocks. -/
theorem coverslipMegasLoop_eq_take_sum :
    ∀ (bs : List Block) (ds : List ℚ),
      coverslipMegasLoop bs ds
        = (ds.take ((bs.map fun b => b.slides.length).sum)).sum := by
  intro bs
  induction bs with
  | nil => intro ds; simp [coverslipMegasLoop]
  | cons b rest ih =>
      intro ds
      simp only [coverslipMegasLoop, ih, List.map_cons, List.sum_cons]
      rw [List.take_add, List.sum_append]

/-! ## Claim theorems -/

/-- C1: the claim says an URGENT specimen in the Large-specimens branch never
produces mega blocks.  The code does the opposite: the guard
`(self.prio == Priority.URGENT) or (env.u01() < env.globals.prob_mega_blocks)`
sends every urgent specimen into the mega sub-branch, even when
`prob_mega_blocks = 0` (here the routine specimen with the same draws gets
large-surgical blocks, while the urgent one gets megas). -/
theorem C1_urgent_large_branch_produces_megas :
    (init_cut_up g0 sUrgent cutW).data.cutup_type = some CutupType.LargeSpecimens ∧
    (init_cut_up g0 sUrgent cutW).blocks.length = 2 ∧
    (∀ b ∈ (init_cut_up g0 sUrgent cutW).blocks, b.block_type = BlockType.mega) ∧
    g0.prob_mega_blocks = 0 ∧
    (∀ b ∈ (init_cut_up g0 sRoutine cutW).blocks,
      b.block_type = BlockType.largeSurgical) := by
  have hs1 : probBms g0 sUrgent.prio + probPool g0 sUrgent.prio = 0 := by
    norm_num [probBms, probPool, g0, sUrgent]
  have hs2 : probBms g0 sRoutine.prio + probPool g0 sRoutine.prio = 0 := by
    norm_num [probBms, probPool, g0, sRoutine]
  simp only [init_cut_up, hs1, hs2]
  decide

/-- C2: one uniform draw decides a three-way split against the
priority-selected thresholds: below the BMS threshold the cut-up type is BMS
with exactly one small-surgical block; below the sum of thresholds it is Pool
with exactly one large-surgical block; otherwise it is Large specimens with
the block count sampled from the count distribution keyed by the chosen block
type. -/
theorem C2_cutup_three_way_split (g : Globals) (s : Specimen) (smp : CutUpSamples) :
    probBms g s.prio
      = (if s.prio = Priority.URGENT then g.prob_bms_cutup_urgent else g.prob_bms_cutup) ∧
    probPool g s.prio
      = (if s.prio = Priority.URGENT then g.prob_pool_cutup_urgent else g.prob_pool_cutup) ∧
    (smp.r < probBms g s.prio →
      (init_cut_up g s smp).data.cutup_type = some CutupType.BMS ∧
      (init_cut_up g s smp).blocks
        = s.blocks ++ [mkBlock s.name BlockType.smallSurgical] ∧
      (init_cut_up g s smp).data.num_blocks = some 1) ∧
    (¬ smp.r < probBms g s.prio →
      smp.r < probBms g s.prio + probPool g s.prio →
      (init_cut_up g s smp).data.cutup_type = some CutupType.Pool ∧
      (init_cut_up g s smp).blocks
        = s.blocks ++ [mkBlock s.name BlockType.largeSurgical] ∧
      (init_cut_up g s smp).data.num_blocks = some 1) ∧
    (¬ smp.r < probBms g s.prio →
      ¬ smp.r < probBms g s.prio + probPool g s.prio →
      (init_cut_up g s smp).data.cutup_type = some CutupType.LargeSpecimens ∧
      ∃ bt : BlockType, bt ≠ BlockType.smallSurgical ∧
        (init_cut_up g s smp).blocks = s.blocks ++
          List.replicate
            (if bt = BlockType.mega then smp.nMega else smp.nLargeSurgical)
            (mkBlock s.name bt) ∧
        (init_cut_up g s smp).data.num_blocks
          = some (if bt = BlockType.mega then smp.nMega else smp.nLargeSurgical)) := by
  refine ⟨rfl, rfl, fun h1 => ?_, fun h1 h2 => ?_, fun h1 h2 => ?_⟩
  · simp [init_cut_up, h1]
  · simp [init_cut_up, h1, h2]
  · by_cases hM : s.prio = Priority.URGENT ∨ smp.rMega < g.prob_mega_blocks
    · exact ⟨by simp [init_cut_up, h1, h2], BlockType.mega, by simp,
        by simp [init_cut_up, h1, h2, hM], by simp [init_cut_up, h1, h2, hM]⟩
    · exact ⟨by simp [init_cut_up, h1, h2], BlockType.largeSurgical, by simp,
        by simp [init_cut_up, h1, h2, hM], by simp [init_cut_up, h1, h2, hM]⟩

/-- C2 witness: the BMS branch at a concrete routine specimen whose draw is
below the plain BMS threshold. -/
theorem C2_cutup_three_way_split_witness :
    (init_cut_up gBms sRoutine cutPoolW).data.cutup_type = some CutupType.BMS ∧
    (init_cut_up gBms sRoutine cutPoolW).blocks
      = sRoutine.blocks ++ [mkBlock sRoutine.name BlockType.smallSurgical] := by
  have h := (C2_cutup_three_way_split gBms sRoutine cutPoolW).2.2.1 (by decide)
  exact ⟨h.1, h.2.1⟩

/-- C9 counterexample: on a draw taking the Pool branch, the earlier `cut_up`
does not write `data['num_blocks']` while `init_cut_up` sets it to 1, so the
two implementations do not produce the same final specimen state. -/
theorem C9_counterexample :
    (cut_up gPool sRoutine cutPoolW).data.num_blocks = none ∧
    (init_cut_up gPool sRoutine cutPoolW).data.num_blocks = some 1 ∧
    cut_up gPool sRoutine cutPoolW ≠ init_cut_up gPool sRoutine cutPoolW := by
  have hs : probBms gPool sRoutine.prio + probPool gPool sRoutine.prio = 1 := by
    have : sRoutine.prio = Priority.ROUTINE := rfl
    norm_num [probBms, probPool, gPool, g0, this]
    decide
  simp only [cut_up, init_cut_up, hs]
  decide

/-- C9 amended: under identical draws and samples the two cut-up
implementations agree on the blocks produced, the bootstrap elapsed/transit
entries, and the `cutup_type` entry; they agree on `num_blocks` in the BMS
branch, but outside it the earlier `cut_up` leaves `num_blocks` untouched. -/
theorem C9_cutup_agreement (g : Globals) (s : Specimen) (smp : CutUpSamples) :
    (cut_up g s smp).name = (init_cut_up g s smp).name ∧
    (cut_up g s smp).prio = (init_cut_up g s smp).prio ∧
    (cut_up g s smp).blocks = (init_cut_up g s smp).blocks ∧
    (cut_up g s smp).bootstrap = (init_cut_up g s smp).bootstrap ∧
    (cut_up g s smp).data.cutup_type = (init_cut_up g s smp).data.cutup_type ∧
    (cut_up g s smp).data.source = (init_cut_up g s smp).data.source ∧
    (cut_up g s smp).data.decalc_type = (init_cut_up g s smp).data.decalc_type ∧
    (cut_up g s smp).data.total_slides = (init_cut_up g s smp).data.total_slides ∧
    (smp.r < probBms g s.prio →
      (cut_up g s smp).data.num_blocks = (init_cut_up g s smp).data.num_blocks) ∧
    (¬ smp.r < probBms g s.prio →
      (cut_up g s smp).data.num_blocks = s.data.num_blocks) := by
  unfold cut_up init_cut_up
  split_ifs with h1 h2 <;> simp_all

/-- C9 amended witness: the agreement at a concrete Pool-branch input. -/
theorem C9_cutup_agreement_witness :
    (cut_up gPool sRoutine cutPoolW).blocks
      = (init_cut_up gPool sRoutine cutPoolW).blocks ∧
    (cut_up gPool sRoutine cutPoolW).data.num_blocks
      = sRoutine.data.num_blocks := by
  have h := C9_cutup_agreement gPool sRoutine cutPoolW
  exact ⟨h.2.2.1, h.2.2.2.2.2.2.2.2.2 (by decide)⟩

/-- C3: for a bootstrap map whose completed-stage set is a (possibly empty)
prefix of the stage order and whose recorded elapsed and transit values are
nonnegative, every stage start and end timestamp assigned by
`compute_timestamps` is ≤ 0; if Reception is completed its start is ≤ 0, if QC
is completed its end is exactly 0, and the empty map gets no timestamp at
all. -/
theorem C3_timestamps_nonpositive (b : BootstrapRecord)
    (_hc : b.contiguous) (hn : b.nonneg) :
    optPairNonpos (compute_timestamps b).reception ∧
    optPairNonpos (compute_timestamps b).cutup ∧
    optPairNonpos (compute_timestamps b).processing ∧
    optPairNonpos (compute_timestamps b).microtomy ∧
    optPairNonpos (compute_timestamps b).staining ∧
    optPairNonpos (compute_timestamps b).labelling ∧
    optPairNonpos (compute_timestamps b).scanning ∧
    optPairNonpos (compute_timestamps b).qc ∧
    (∀ p, b.reception = some p →
      ∃ q, (compute_timestamps b).reception = some q ∧ q.1 ≤ 0) ∧
    (∀ e, b.qc = some e → (compute_timestamps b).qc = some (0 - e, 0)) ∧
    (b = BootstrapRecord.empty →
      compute_timestamps b = ⟨none, none, none, none, none, none, none, none⟩) := by
  obtain ⟨hrec, hcut, hproc, hmic, hstain, hlab, hscan, hqc⟩ := hn
  have t8 : tAfterQc b ≤ 0 := stepQc_snd_nonpos b.qc hqc
  have t7 : tAfterScanning b ≤ 0 := stepStage_snd_nonpos b.scanning (tAfterQc b) t8 hscan
  have t6 : tAfterLabelling b ≤ 0 :=
    stepStage_snd_nonpos b.labelling (tAfterScanning b) t7 hlab
  have t5 : tAfterStaining b ≤ 0 :=
    stepStage_snd_nonpos b.staining (tAfterLabelling b) t6 hstain
  have t4 : tAfterMicrotomy b ≤ 0 :=
    stepStage_snd_nonpos b.microtomy (tAfterStaining b) t5 hmic
  have t3 : tAfterProcessing b ≤ 0 :=
    stepStage_snd_nonpos b.processing (tAfterMicrotomy b) t4 hproc
  have t2 : tAfterCutup b ≤ 0 := stepStage_snd_nonpos b.cutup (tAfterProcessing b) t3 hcut
  refine ⟨stepStage_fst_nonpos b.reception (tAfterCutup b) t2 hrec,
    stepStage_fst_nonpos b.cutup (tAfterProcessing b) t3 hcut,
    stepStage_fst_nonpos b.processing (tAfterMicrotomy b) t4 hproc,
    stepStage_fst_nonpos b.microtomy (tAfterStaining b) t5 hmic,
    stepStage_fst_nonpos b.staining (tAfterLabelling b) t6 hstain,
    stepStage_fst_nonpos b.labelling (tAfterScanning b) t7 hlab,
    stepStage_fst_nonpos b.scanning (tAfterQc b) t8 hscan,
    stepQc_fst_nonpos b.qc hqc, ?_, ?_, ?_⟩
  · intro p hp
    refine ⟨(tAfterCutup b - p.2 - p.1, tAfterCutup b - p.2), ?_, ?_⟩
    · show (stepStage b.reception (tAfterCutup b)).1 = _
      rw [hp, stepStage_some_eq]
    · have hrecp := hrec
      rw [hp] at hrecp
      obtain ⟨h1, h2⟩ := hrecp
      simp only
      linarith
  · intro e he
    show (stepQc b.qc).1 = _
    rw [he]
    rfl
  · intro h
    subst h
    rfl

/-- C3 witness: the fully completed concrete bootstrap record `bW` satisfies
the hypotheses and its QC end timestamp is 0. -/
theorem C3_timestamps_nonpositive_witness :
    BootstrapRecord.contiguous bW ∧ BootstrapRecord.nonneg bW ∧
    (compute_timestamps bW).qc = some (0 - 2, 0) := by
  have hc : BootstrapRecord.contiguous bW := by
    simp [BootstrapRecord.contiguous, bW]
  have hn : BootstrapRecord.nonneg bW := by
    norm_num [BootstrapRecord.nonneg, bW, optPairNonneg, optNonneg]
  exact ⟨hc, hn, (C3_timestamps_nonpositive bW hc hn).2.2.2.2.2.2.2.2.2.1 2 rfl⟩

/-- C4: the timestamps assigned by `compute_timestamps` are coherent: for
every recorded stage, end minus start equals the recorded elapsed time, and
for every pair of consecutive recorded stages the later stage's start equals
the earlier stage's end plus the recorded inter-stage transit time. -/
theorem C4_timestamps_coherent (b : BootstrapRecord)
    (_hc : b.contiguous) (_hn : b.nonneg) :
    (∀ p q, b.reception = some p →
      (compute_timestamps b).reception = some q → q.2 - q.1 = p.1) ∧
    (∀ p q, b.cutup = some p →
      (compute_timestamps b).cutup = some q → q.2 - q.1 = p.1) ∧
    (∀ p q, b.processing = some p →
      (compute_timestamps b).processing = some q → q.2 - q.1 = p.1) ∧
    (∀ p q, b.microtomy = some p →
      (compute_timestamps b).microtomy = some q → q.2 - q.1 = p.1) ∧
    (∀ p q, b.staining = some p →
      (compute_timestamps b).staining = some q → q.2 - q.1 = p.1) ∧
    (∀ p q, b.labelling = some p →
      (compute_timestamps b).labelling = some q → q.2 - q.1 = p.1) ∧
    (∀ p q, b.scanning = some p →
      (compute_timestamps b).scanning = some q → q.2 - q.1 = p.1) ∧
    (∀ e q, b.qc = some e →
      (compute_timestamps b).qc = some q → q.2 - q.1 = e) ∧
    (∀ p qPrev qNext, b.reception = some p →
      (compute_timestamps b).reception = some qPrev →
      (compute_timestamps b).cutup = some qNext → qNext.1 = qPrev.2 + p.2) ∧
    (∀ p qPrev qNext, b.cutup = some p →
      (compute_timestamps b).cutup = some qPrev →
      (compute_timestamps b).processing = some qNext → qNext.1 = qPrev.2 + p.2) ∧
    (∀ p qPrev qNext, b.processing = some p →
      (compute_timestamps b).processing = some qPrev →
      (compute_timestamps b).microtomy = some qNext → qNext.1 = qPrev.2 + p.2) ∧
    (∀ p qPrev qNext, b.microtomy = some p →
      (compute_timestamps b).microtomy = some qPrev →
      (compute_timestamps b).staining = some qNext → qNext.1 = qPrev.2 + p.2) ∧
    (∀ p qPrev qNext, b.staining = some p →
      (compute_timestamps b).staining = some qPrev →
      (compute_timestamps b).labelling = some qNext → qNext.1 = qPrev.2 + p.2) ∧
    (∀ p qPrev qNext, b.labelling = some p →
      (compute_timestamps b).labelling = some qPrev →
      (compute_timestamps b).scanning = some qNext → qNext.1 = qPrev.2 + p.2) ∧
    (∀ p qPrev qNext, b.scanning = some p →
      (compute_timestamps b).scanning = some qPrev →
      (compute_timestamps b).qc = some qNext → qNext.1 = qPrev.2 + p.2) := by
  refine ⟨fun p q hp hq => stepStage_duration b.reception (tAfterCutup b) p q hp hq,
    fun p q hp hq => stepStage_duration b.cutup (tAfterProcessing b) p q hp hq,
    fun p q hp hq => stepStage_duration b.processing (tAfterMicrotomy b) p q hp hq,
    fun p q hp hq => stepStage_duration b.microtomy (tAfterStaining b) p q hp hq,
    fun p q hp hq => stepStage_duration b.staining (tAfterLabelling b) p q hp hq,
    fun p q hp hq => stepStage_duration b.labelling (tAfterScanning b) p q hp hq,
    fun p q hp hq => stepStage_duration b.scanning (tAfterQc b) p q hp hq,
    fun e q hp hq => stepQc_duration b.qc e q hp hq,
    fun p qPrev qNext hp h1 h2 =>
      stepStage_pair b.reception b.cutup (tAfterProcessing b) p qPrev qNext hp h1 h2,
    fun p qPrev qNext hp h1 h2 =>
      stepStage_pair b.cutup b.processing (tAfterMicrotomy b) p qPrev qNext hp h1 h2,
    fun p qPrev qNext hp h1 h2 =>
      stepStage_pair b.processing b.microtomy (tAfterStaining b) p qPrev qNext hp h1 h2,
    fun p qPrev qNext hp h1 h2 =>
      stepStage_pair b.microtomy b.staining (tAfterLabelling b) p qPrev qNext hp h1 h2,
    fun p qPrev qNext hp h1 h2 =>
      stepStage_pair b.staining b.labelling (tAfterScanning b) p qPrev qNext hp h1 h2,
    fun p qPrev qNext hp h1 h2 =>
      stepStage_pair b.labelling b.scanning (tAfterQc b) p qPrev qNext hp h1 h2,
    fun p qPrev qNext hp h1 h2 =>
      stepQc_pair b.scanning b.qc p qPrev qNext hp h1 h2⟩

/-- C4 witness: on the fully completed record `bW` the reception block gets
timestamps (-16, -15), whose difference is the recorded elapsed time 1. -/
theorem C4_timestamps_coherent_witness :
    (compute_timestamps bW).reception = some (-16, -15) ∧
    ((-16 : ℚ), (-15 : ℚ)).2 - ((-16 : ℚ), (-15 : ℚ)).1 = (1 : ℚ) := by
  have hc : BootstrapRecord.contiguous bW := by
    simp [BootstrapRecord.contiguous, bW]
  have hn : BootstrapRecord.nonneg bW := by
    norm_num [BootstrapRecord.nonneg, bW, optPairNonneg, optNonneg]
  have hts : (compute_timestamps bW).reception = some (-16, -15) := by
    norm_num [compute_timestamps, tAfterCutup, tAfterProcessing, tAfterMicrotomy,
      tAfterStaining, tAfterLabelling, tAfterScanning, tAfterQc, stepStage, stepQc,
      bW, Prod.ext_iff]
  exact ⟨hts, (C4_timestamps_coherent bW hc hn).1 (1, 1) (-16, -15) rfl hts⟩

/-- C5: after bootstrap cut-up a specimen (starting with no blocks, with
positive count samples) owns at least one block and every block's parent is
that specimen; after bootstrap microtomy (positive slide-count samples, count
stream as long as the block list, blocks without slides) every block owns at
least one slide and every slide's parent is its block; microtomy does not
change the identity or type of any block, and processing, staining,
labelling, scanning and QC do not touch the blocks at all. -/
theorem C5_children_structure :
    (∀ (g : Globals) (s : Specimen) (smp : CutUpSamples),
      s.blocks = [] → 1 ≤ smp.nMega → 1 ≤ smp.nLargeSurgical →
      1 ≤ (init_cut_up g s smp).blocks.length ∧
      ∀ b ∈ (init_cut_up g s smp).blocks, b.parent = s.name) ∧
    (∀ (g : Globals) (s : Specimen) (smp : MicrotomySamples),
      smp.counts.length = s.blocks.length → (∀ n ∈ smp.counts, 1 ≤ n) →
      (∀ b ∈ s.blocks, b.slides = []) →
      ∀ b ∈ (init_microtomy g s smp).blocks,
        1 ≤ b.slides.length ∧ ∀ sl ∈ b.slides, sl.parent = b.name) ∧
    (∀ (g : Globals) (s : Specimen) (smp : MicrotomySamples),
      ((init_microtomy g s smp).blocks.map fun b => (b.name, b.parent, b.block_type))
        = s.blocks.map fun b => (b.name, b.parent, b.block_type)) ∧
    (∀ (g : Globals) (s : Specimen) (smp : ProcessingSamples) (s' : Specimen),
      init_processing g s smp = some s' → s'.blocks = s.blocks) ∧
    (∀ (s : Specimen) (smp : StainingSamples) (s' : Specimen),
      init_staining s smp = some s' → s'.blocks = s.blocks) ∧
    (∀ (s : Specimen) (smp : LabellingSamples),
      (init_labelling s smp).blocks = s.blocks) ∧
    (∀ (s : Specimen) (smp : ScanningSamples) (s' : Specimen),
      init_scanning s smp = some s' → s'.blocks = s.blocks) ∧
    (∀ (s : Specimen) (d : ℚ), (init_qc s d).blocks = s.blocks) ∧
    (∀ (g : Globals) (s : Specimen) (smp : MicrotomySamples),
      (init_microtomy g s smp).data.num_blocks = s.data.num_blocks ∧
      (init_microtomy g s smp).data.cutup_type = s.data.cutup_type) ∧
    (∀ (g : Globals) (s : Specimen) (smp : ProcessingSamples) (s' : Specimen),
      init_processing g s smp = some s' →
        s'.data.num_blocks = s.data.num_blocks ∧
        s'.data.total_slides = s.data.total_slides ∧
        s'.data.cutup_type = s.data.cutup_type) ∧
    (∀ (s : Specimen) (smp : StainingSamples) (s' : Specimen),
      init_staining s smp = some s' → s'.data = s.data) ∧
    (∀ (s : Specimen) (smp : LabellingSamples),
      (init_labelling s smp).data = s.data) ∧
    (∀ (s : Specimen) (smp : ScanningSamples) (s' : Specimen),
      init_scanning s smp = some s' → s'.data = s.data) ∧
    (∀ (s : Specimen) (d : ℚ), (init_qc s d).data = s.data) := by
  refine ⟨?_, ?_, ?_, ?_, ?_, ?_, ?_, ?_, ?_, ?_, ?_, ?_, ?_, ?_⟩
  · intro g s smp hs h1 h2
    unfold init_cut_up
    split_ifs with hA hB hM
    · exact ⟨by simp [hs], by intro b hb; simp [hs, mkBlock] at hb; simp [hb]⟩
    · exact ⟨by simp [hs], by intro b hb; simp [hs, mkBlock] at hb; simp [hb]⟩
    · refine ⟨by simpa [hs] using h1, ?_⟩
      intro b hb
      simp [hs, List.mem_replicate, mkBlock] at hb
      simp [hb.2]
    · refine ⟨by simpa [hs] using h2, ?_⟩
      intro b hb
      simp [hs, List.mem_replicate, mkBlock] at hb
      simp [hb.2]
  · intro g s smp hlen hpos hempty b hb
    exact microtomyLoop_slides g s.blocks smp.us smp.durs smp.counts
      hlen hpos hempty b hb
  · intro g s smp
    exact microtomyLoop_map_identity g s.blocks smp.us smp.durs smp.counts
  · intro g s smp s' h
    obtain ⟨md, _, rfl⟩ := Option.map_eq_some'.mp h
    rfl
  · intro s smp s' h
    obtain ⟨st, _, rfl⟩ := Option.map_eq_some'.mp h
    rfl
  · intro s smp
    rfl
  · intro s smp s' h
    obtain ⟨st, _, rfl⟩ := Option.map_eq_some'.mp h
    rfl
  · intro s d
    rfl
  · intro g s smp
    exact ⟨rfl, rfl⟩
  · intro g s smp s' h
    obtain ⟨md, _, rfl⟩ := Option.map_eq_some'.mp h
    rcases hdc : (decalcChoice g smp).1 with _ | dt <;> simp [hdc]
  · intro s smp s' h
    obtain ⟨st, _, rfl⟩ := Option.map_eq_some'.mp h
    rfl
  · intro s smp
    rfl
  · intro s smp s' h
    obtain ⟨st, _, rfl⟩ := Option.map_eq_some'.mp h
    rfl
  · intro s d
    rfl

/-- C5 witness: the Pool cut-up at concrete inputs yields a block, and the
microtomy of the concrete one-block specimen fills it with slides. -/
theorem C5_children_structure_witness :
    1 ≤ (init_cut_up gBms sRoutine cutPoolW).blocks.length ∧
    ∀ b ∈ (init_microtomy g0 sOneBlock micW).blocks, 1 ≤ b.slides.length := by
  refine ⟨(C5_children_structure.1 gBms sRoutine cutPoolW rfl
    (by decide) (by decide)).1, ?_⟩
  intro b hb
  exact (C5_children_structure.2.1 g0 sOneBlock micW rfl
    (by decide) (by decide) b hb).1

/-- C6: the bootstrap reception elapsed time is the receive-and-sort duration,
plus the pre-booking investigation duration exactly when the prebook draw is
below `prob_prebook`, plus the Internal or External booking-in duration by
source, plus the additional-investigation duration selected by the
investigation draws. -/
theorem C6_reception_elapsed (g : Globals) (s : Specimen) (smp : ReceptionSamples) :
    (init_reception g s smp).bootstrap.reception = some
      (smp.dReceiveAndSort
        + (if smp.uPrebook < g.prob_prebook then smp.dPreBookingInInvestigation else 0)
        + (if s.data.source = Source.Internal then smp.dBookingInInternal
           else smp.dBookingInExternal)
        + (if s.data.source = Source.Internal then
             (if smp.rInvest < g.prob_invest_easy then smp.dInvestInternalEasy
              else if smp.rInvest < g.prob_invest_easy + g.prob_invest_hard then
                smp.dInvestInternalHard
              else 0)
           else
             (if smp.uInvestExternal < g.prob_invest_external then
               smp.dInvestExternal
              else 0)),
       smp.trReceptionToCutup) := by
  unfold init_reception
  split_ifs <;> simp

/-- C7: the bootstrap processing elapsed time is the optional decalcification
chain selected by the decalc draw, plus the processing-machine load and
unload durations, plus a main duration that is the urgent duration for URGENT
priority and otherwise is keyed by the type of the specimen's first block. -/
theorem C7_processing_elapsed (g : Globals) (s : Specimen) (smp : ProcessingSamples)
    (b0 : Block) (h : s.blocks.head? = some b0) :
    ∃ s', init_processing g s smp = some s' ∧
      s'.bootstrap.processing = some
        ((if smp.rDecalc < g.prob_decalc_bone then
            smp.dLoadBoneStation + smp.dDecalc + smp.dUnloadBoneStation
          else if smp.rDecalc < g.prob_decalc_bone + g.prob_decalc_oven then
            smp.dLoadIntoDecalcOven + smp.dDecalc + smp.dUnloadFromDecalcOven
          else 0)
          + smp.dLoadProcessingMachine
          + (if s.prio = Priority.URGENT then smp.dProcessingUrgent
             else match b0.block_type with
               | BlockType.smallSurgical => smp.dProcessingSmallSurgicals
               | BlockType.largeSurgical => smp.dProcessingLargeSurgicals
               | BlockType.mega => smp.dProcessingMegas)
          + smp.dUnloadProcessingMachine,
         smp.trProcessingToMicrotomy) := by
  have hmd : processingMainDur s smp = some
      (if s.prio = Priority.URGENT then smp.dProcessingUrgent
       else match b0.block_type with
         | BlockType.smallSurgical => smp.dProcessingSmallSurgicals
         | BlockType.largeSurgical => smp.dProcessingLargeSurgicals
         | BlockType.mega => smp.dProcessingMegas) := by
    unfold processingMainDur
    split_ifs with hu
    · rfl
    · rw [h]
  simp only [init_processing, hmd, Option.map_some']
  refine ⟨_, rfl, ?_⟩
  simp only [decalcChoice]
  split_ifs <;> simp

/-- C7 witness: the concrete one-block specimen takes the no-decalc branch
and the large-surgical main duration. -/
theorem C7_processing_elapsed_witness :
    ∃ s', init_processing g0 sOneBlock prW = some s' ∧
      s'.bootstrap.processing = some (8, 1) := by
  obtain ⟨s', h1, h2⟩ := C7_processing_elapsed g0 sOneBlock prW
    (mkBlock "S2" BlockType.largeSurgical) rfl
  refine ⟨s', h1, ?_⟩
  rw [h2]
  simp only [g0, prW, mkBlock, sOneBlock, sRoutine, reduceCtorEq, if_false]
  norm_num

/-- C8: the bootstrap staining elapsed time for a megas-slide specimen is the
mega load/stain/unload chain plus one sampled coverslip duration per
individual slide over all slides of all blocks, and for any other slide type
it is the regular load/stain/unload chain plus the shared coverslip machine's
chain added exactly once, independent of the number of slides. -/
theorem C8_staining_elapsed (s : Specimen) (smp : StainingSamples) (st : SlideType)
    (h : slideTypeLookup s = some st) :
    ∃ s', init_staining s smp = some s' ∧
      s'.bootstrap.staining = some
        (if st = SlideType.megas then
          smp.dLoadStainingMegas + smp.dStainingMegas + smp.dUnloadStainingMegas
            + (smp.dsCoverslipMegas.take (totalSlides s)).sum
        else
          smp.dLoadStainingRegular + smp.dStainingRegular
            + smp.dUnloadStainingRegular + smp.dLoadCoverslipRegular
            + smp.dCoverslipRegular + smp.dUnloadCoverslipRegular,
         smp.trStainingToLabelling) := by
  simp only [init_staining, h, Option.map_some']
  refine ⟨_, rfl, ?_⟩
  simp only [coverslipMegasLoop_eq_take_sum, totalSlides]

/-- C8 witness: the concrete mega specimen with two slides gets both sampled
coverslip durations (3 and 4) on top of the chain 1+2+1. -/
theorem C8_staining_elapsed_witness :
    ∃ s', init_staining sMega stW = some s' ∧
      s'.bootstrap.staining = some (11, 1) := by
  obtain ⟨s', h1, h2⟩ := C8_staining_elapsed sMega stW SlideType.megas rfl
  refine ⟨s', h1, ?_⟩
  rw [h2]
  norm_num [totalSlides, sMega, blockMega, stW]

/-- C10: the slide-type lookup `blocks[0].slides[0]` shared by `init_staining`
and `init_scanning` succeeds, and both functions return a value, whenever the
specimen has a first block with at least one slide; for a specimen violating
the precondition (no blocks, or a first block without slides) the lookup has
no value and both functions return none. -/
theorem C10_slide_type_lookup_totality :
    (∀ (s : Specimen) (b0 : Block), s.blocks.head? = some b0 → b0.slides ≠ [] →
      (slideTypeLookup s).isSome ∧
      (∀ smp : StainingSamples, (init_staining s smp).isSome) ∧
      (∀ smp : ScanningSamples, (init_scanning s smp).isSome)) ∧
    slideTypeLookup sRoutine = none ∧
    (∀ smp : StainingSamples, init_staining sRoutine smp = none) ∧
    (∀ smp : ScanningSamples, init_scanning sRoutine smp = none) ∧
    slideTypeLookup sOneBlock = none := by
  refine ⟨?_, rfl, fun smp => rfl, fun smp => rfl, rfl⟩
  intro s b0 h1 h2
  obtain ⟨sl, tl, hsl⟩ := List.exists_cons_of_ne_nil h2
  have hl : slideTypeLookup s = some sl.slide_type := by
    simp [slideTypeLookup, h1, hsl]
  exact ⟨by simp [hl], fun smp => by simp [init_staining, hl],
    fun smp => by simp [init_scanning, hl]⟩

/-- C10 witness: the concrete mega specimen satisfies the precondition and
both lookups succeed on it. -/
theorem C10_slide_type_lookup_totality_witness :
    (slideTypeLookup sMega).isSome ∧ (init_staining sMega stW).isSome ∧
    (init_scanning sMega scW).isSome := by
  have h := C10_slide_type_lookup_totality.1 sMega blockMega rfl (by decide)
  exact ⟨h.1, h.2.1 stW, h.2.2 scW⟩

end HPath
